import Mathlib

/-!
Shallow embedding of `SNData/csp/dr1/_data_parsing.py`: local-store access
functions for the CSP DR1 data release (`get_available_tables`, `load_table`,
`get_available_ids`, `get_data_for_id`, `iter_data`).

The local file store is modelled explicitly: a spectral file carries its name,
its comment-header lines, and its already-parsed (wavelength, flux) rows (the
two-column ascii reader is an external collaborator); the table store is a list
of file names.  Numeric values that Python parses with `float` are modelled as
exact rationals: the module performs no arithmetic on them, so `Rat` carries
the parsed decimal literals faithfully.  Python exceptions are modelled with
`Except PyErr`.
-/

/-- Modelled Python exceptions.  The constructors `objectNotFound` and
`tableNotFound` stand for the two `ValueError` raises in the source
(`'No data found for obj_id ...'` on line 82 and `'Table ... is not
available.'` on line 40); both raise sites are unreachable in the source,
because `if not files:` tests a generator object (always truthy) and
`if not table_path.exists:` tests a bound method object (always truthy). -/
inductive PyErr where
  | dataUnavailable
  | objectNotFound
  | tableNotFound
  | floatParse
  | intParse
  | unpack
  | indexErr
  | unboundLocal
  | fileNotFound
  deriving DecidableEq

/-- Decidable equality of `Except` values, for evaluating the model on
concrete stores. -/
instance instDecEqExcept {ε α : Type} [DecidableEq ε] [DecidableEq α] :
    DecidableEq (Except ε α)
  | .error a, .error b =>
    if h : a = b then isTrue (congrArg Except.error h)
    else isFalse (fun q => h (Except.error.inj q))
  | .error _, .ok _ => isFalse (fun q => Except.noConfusion q)
  | .ok _, .error _ => isFalse (fun q => Except.noConfusion q)
  | .ok a, .ok b =>
    if h : a = b then isTrue (congrArg Except.ok h)
    else isFalse (fun q => h (Except.ok.inj q))

/-- Model of Python `str.lstrip(chars)`: remove the longest run of leading
characters that belong to the character set of `chars`. -/
def pyLstrip (chars : String) (s : String) : String :=
  ⟨s.data.dropWhile (fun c => decide (c ∈ chars.data))⟩

/-- Split a character list at every occurrence of `sep`, keeping empty
pieces, as Python `str.split(sep)` does for a one-character separator. -/
def pySplitChars (sep : Char) : List Char → List (List Char)
  | [] => [[]]
  | c :: cs =>
    match pySplitChars sep cs with
    | [] => if c = sep then [[], []] else [[c]]
    | p :: ps => if c = sep then [] :: p :: ps else (c :: p) :: ps

/-- Model of Python `str.split(sep)` for a one-character separator. -/
def pySplit (sep : Char) (s : String) : List String :=
  (pySplitChars sep s.data).map (fun l => ⟨l⟩)

/-- Model of Python `s[2:]` on ASCII strings. -/
def pySlice2 (s : String) : String :=
  ⟨s.data.drop 2⟩

/-- Characters of `pathlib.Path.stem`: the final path component without its
last suffix; a name with no dot, or only a leading dot, is its own stem. -/
def pyStemChars (name : List Char) : List Char :=
  match name.reverse.dropWhile (fun c => c ≠ '.') with
  | [] => name
  | _ :: base => if base = [] then name else base.reverse

/-- Model of `pathlib.Path(name).stem`. -/
def pyStem (name : String) : String :=
  ⟨pyStemChars name.data⟩

/-- Numeric value of a list of decimal digit characters, most significant
first. -/
def natOfDigits (l : List Char) : Nat :=
  l.foldl (fun a c => 10 * a + (c.toNat - 48)) 0

/-- Integer with a sign flag, used to carry an optional leading minus sign
through decimal parsing. -/
def signedOfDigits (neg : Bool) (l : List Char) : Int :=
  if neg then -(natOfDigits l : Int) else (natOfDigits l : Int)

/-- Parse an unsigned decimal literal, optionally containing one decimal
point, into an exact rational (the digits `ip.fp` denote the fraction
`ip fp / 10 ^ |fp|`); `none` models a `ValueError` from `float`.
Scientific notation, infinities and whitespace padding are outside the
fragment the data files use. -/
def pyFloatCore (neg : Bool) (l : List Char) : Option Rat :=
  let ip := l.takeWhile Char.isDigit
  match l.dropWhile Char.isDigit with
  | [] => if ip.isEmpty then none else some (mkRat (signedOfDigits neg ip) 1)
  | '.' :: fp =>
    if ip.isEmpty && fp.isEmpty then none
    else if fp.all Char.isDigit then
      some (mkRat (signedOfDigits neg (ip ++ fp)) (10 ^ fp.length))
    else none
  | _ => none

/-- Model of Python `float(s)` on plain decimal literals with an optional
sign. -/
def pyFloat (s : String) : Option Rat :=
  match s.data with
  | '-' :: r => pyFloatCore true r
  | '+' :: r => pyFloatCore false r
  | l => pyFloatCore false l

/-- Model of Python `int(s)` on plain decimal literals with an optional
sign. -/
def pyInt (s : String) : Option Int :=
  match s.data with
  | '-' :: r => if r ≠ [] && r.all Char.isDigit then some (-(natOfDigits r : Int)) else none
  | '+' :: r => if r ≠ [] && r.all Char.isDigit then some ((natOfDigits r : Int)) else none
  | l => if l ≠ [] && l.all Char.isDigit then some ((natOfDigits l : Int)) else none

/-- Model of Python list indexing `l[i]` for a non-negative index: an
`IndexError` when the index is out of range. -/
def pyIndex (l : List String) (i : Nat) : Except PyErr String :=
  match l[i]? with
  | some s => .ok s
  | none => .error .indexErr

/-- Boolean test that the first list is an initial segment of the second. -/
def listStarts : List Char → List Char → Bool
  | [], _ => true
  | _ :: _, [] => false
  | a :: as, b :: bs => if a = b then listStarts as bs else false

/-- Matching of a glob pattern of the shape `pre*suf` (one star, literal
prefix and suffix) against a file name, the only pattern shape the module
uses (`SN*.dat`, `SN<suffix>_*.dat`, `table*.dat`).  The star matches any,
possibly empty, character sequence. -/
def globMatch1 (pre suf name : String) : Bool :=
  listStarts pre.data name.data &&
  listStarts suf.data.reverse name.data.reverse &&
  decide (pre.data.length + suf.data.length ≤ name.data.length)

/-- One spectral data file of the local store: its file name, its
comment-header lines (in file order), and its data rows, each an already
parsed (wavelength, flux) pair. -/
structure SpectralFile where
  name : String
  comments : List String
  rows : List (Rat × Rat)
  deriving DecidableEq

/-- The local data store: the availability flag maintained by the download
module (`_raise_for_data` raises exactly when it is false), the spectral
files, and the names of the files of the table directory. -/
structure Store where
  fetched : Bool
  spectraFiles : List SpectralFile
  tableFiles : List String
  deriving DecidableEq

/-- One row of the aggregated per-object table, with the columns declared on
lines 75–77 of the source: `date`, `wavelength`, `flux`, `epoch`,
`wavelength_range`, `telescope`, `instrument`. -/
structure SpecRow where
  date : Rat
  wavelength : Rat
  flux : Rat
  epoch : Rat
  wavelength_range : String
  telescope : String
  instrument : String
  deriving DecidableEq

/-- Column names of the aggregated table, from the `names=` list on lines
75–76 of the source. -/
def outputColumns : List String :=
  ["date", "wavelength", "flux", "epoch", "wavelength_range", "telescope",
   "instrument"]

/-- The aggregated per-object table: its rows together with the three
`out_table.meta` entries set on lines 105–107 of the source. -/
structure ObjTable where
  rows : List SpecRow
  redshift : Rat
  jdate_of_max : Rat
  obj_id : String
  deriving DecidableEq

/-- Result of `ascii.read` on a published table file; the cds reader itself
is an external collaborator, so only the identity of the table is kept. -/
structure RawTable where
  num : Int
  deriving DecidableEq

/-- Lines 90–93 of the source: strip a label from a comment line with
`str.lstrip` and parse the remainder with `float`. -/
def lstripFloat (label : String) (line : String) : Except PyErr Rat :=
  match pyFloat (pyLstrip label line) with
  | some v => .ok v
  | none => .error .floatParse

/-- Header extraction of `get_data_for_id`, lines 89–93: read comment lines
1–4 and parse, in order, redshift, date of maximum, observation date and
epoch.  Returns `(redshift, max_date, obs_date, epoch)`. -/
def parseHeader (cs : List String) : Except PyErr (Rat × Rat × Rat × Rat) :=
  match pyIndex cs 1 with
  | .error e => .error e
  | .ok c1 =>
    match lstripFloat "Redshift: " c1 with
    | .error e => .error e
    | .ok redshift =>
      match pyIndex cs 2 with
      | .error e => .error e
      | .ok c2 =>
        match lstripFloat "JDate_of_max: " c2 with
        | .error e => .error e
        | .ok max_date =>
          match pyIndex cs 3 with
          | .error e => .error e
          | .ok c3 =>
            match lstripFloat "JDate_of_observation: " c3 with
            | .error e => .error e
            | .ok obs_date =>
              match pyIndex cs 4 with
              | .error e => .error e
              | .ok c4 =>
                match lstripFloat "Epoch: " c4 with
                | .error e => .error e
                | .ok epoch => .ok (redshift, max_date, obs_date, epoch)

/-- Line 94 of the source: `_, _, wrange, telescope, instrument =
f.stem.split('_')` — the stem must split into exactly five parts, else the
unpacking raises a `ValueError`. -/
def parseParts (name : String) : Except PyErr (String × String × String) :=
  let parts := pySplit '_' (pyStem name)
  if parts.length = 5 then
    .ok (parts.getD 2 "", parts.getD 3 "", parts.getD 4 "")
  else .error .unpack

/-- Per-file step of `get_data_for_id`, lines 85–101: parse the header,
split the stem, and broadcast observation date, epoch, wavelength range,
telescope and instrument across the file's rows.  Returns the tagged rows
together with the file's redshift and date of maximum (which line 105–106
later store in the table metadata). -/
def parseSpectralFile (f : SpectralFile) : Except PyErr (List SpecRow × Rat × Rat) :=
  match parseHeader f.comments with
  | .error e => .error e
  | .ok (redshift, max_date, obs_date, epoch) =>
    match parseParts f.name with
    | .error e => .error e
    | .ok (wrange, telescope, instrument) =>
      .ok (f.rows.map
            (fun p => ⟨obs_date, p.1, p.2, epoch, wrange, telescope, instrument⟩),
          redshift, max_date)

/-- The glob pattern prefix `f'SN{obj_id[2:]}_'` of line 80. -/
def objPattern (obj_id : String) : String :=
  "SN" ++ pySlice2 obj_id ++ "_"

/-- The spectral files matching `f'SN{obj_id[2:]}_*.dat'` (line 80), in
store order. -/
def matchingFiles (st : Store) (obj_id : String) : List SpectralFile :=
  st.spectraFiles.filter (fun f => globMatch1 (objPattern obj_id) ".dat" f.name)

/-- The loop of lines 84–103 followed by lines 105–109: fold the matching
files into the accumulated rows, remembering the last file's redshift and
date of maximum.  When no file was processed, line 105 reads the local
variable `redshift` before any assignment, an `UnboundLocalError`: the
`if not files:` guard of line 81 tests a generator object and never
fires. -/
def aggregate (obj_id : String) : List SpectralFile → List SpecRow →
    Option (Rat × Rat) → Except PyErr ObjTable
  | [], _, none => .error .unboundLocal
  | [], rows, some (redshift, max_date) => .ok ⟨rows, redshift, max_date, obj_id⟩
  | f :: fs, rows, _ =>
    match parseSpectralFile f with
    | .error e => .error e
    | .ok (pr, redshift, max_date) =>
      aggregate obj_id fs (rows ++ pr) (some (redshift, max_date))

/-- `get_data_for_id` (lines 59–109): check availability, enumerate the
matching spectral files, and aggregate them. -/
def get_data_for_id (st : Store) (obj_id : String) : Except PyErr ObjTable :=
  if st.fetched = false then .error .dataUnavailable
  else aggregate obj_id (matchingFiles st obj_id) [] none

/-- The id `'20' + Path(f).name.split('_')[0].lstrip('SN')` that
`get_available_ids` derives from one file name (line 55). -/
def derivedId (f : SpectralFile) : String :=
  "20" ++ pyLstrip "SN" ((pySplit '_' f.name).getD 0 "")

/-- `get_available_ids` (lines 45–56): check availability, glob
`SN*.dat`, derive one id per file, and collapse duplicates (the source
builds a `set`; order is not significant). -/
def get_available_ids (st : Store) : Except PyErr (List String) :=
  if st.fetched = false then .error .dataUnavailable
  else
    .ok (((st.spectraFiles.filter (fun f => globMatch1 "SN" ".dat" f.name)).map
          derivedId).dedup)

/-- Loop of `get_available_tables`, lines 21–23: for each file matching
`table*.dat`, `int(f.stem.lstrip('table'))`. -/
def tableNums : List String → Except PyErr (List Int)
  | [] => .ok []
  | n :: ns =>
    if globMatch1 "table" ".dat" n then
      match pyInt (pyLstrip "table" (pyStem n)) with
      | none => .error .intParse
      | some v =>
        match tableNums ns with
        | .error e => .error e
        | .ok vs => .ok (v :: vs)
    else tableNums ns

/-- `get_available_tables` (lines 18–25).  The source performs no
`_raise_for_data` availability check in this function (unlike
`load_table`, `get_available_ids` and `get_data_for_id`): it scans the
table directory unconditionally. -/
def get_available_tables (st : Store) : Except PyErr (List Int) :=
  tableNums st.tableFiles

/-- `load_table` (lines 28–42): check availability, then read
`table<N>.dat`.  The guard `if not table_path.exists:` of line 39 tests
the bound method object `exists` (it is never called), which is always
truthy, so the `ValueError` of line 40 is unreachable; a missing file
instead surfaces as the reader's `FileNotFoundError`. -/
def load_table (st : Store) (table_num : Int) : Except PyErr RawTable :=
  if st.fetched = false then .error .dataUnavailable
  else if st.tableFiles.contains ("table" ++ toString table_num ++ ".dat") then
    .ok ⟨table_num⟩
  else .error .fileNotFound

/-- Yield loop of `iter_data`, lines 126–129: load each id's table and
yield it when it is truthy (an astropy table is truthy exactly when it has
at least one row).  The first component collects the yielded tables in
order; the second records the exception, if any, that terminates the
generator early. -/
def iterYield (st : Store) : List String → List ObjTable × Option PyErr
  | [] => ([], none)
  | i :: rest =>
    match get_data_for_id st i with
    | .error e => ([], some e)
    | .ok t =>
      if t.rows.length = 0 then iterYield st rest
      else ((t :: (iterYield st rest).1), (iterYield st rest).2)

/-- `iter_data` (lines 112–129): iterate over `get_available_ids()` and
yield the non-empty tables.  The `verbose` progress-bar decoration is
iteration-transparent and not modelled.  The function's only parameter is
`verbose`: it accepts no filter predicate. -/
def iter_data (st : Store) : List ObjTable × Option PyErr :=
  match get_available_ids st with
  | .error e => ([], some e)
  | .ok ids => iterYield st ids

/-! ### Concrete stores and expected values

Fixtures used to evaluate the model: the two-file scenario of the spec's
section 8.7, plus minimal stores exercising the error paths. -/

/-- Spectral file `SN1999aa_ref_opt_tel1_inst1.dat` of the spec's concrete
scenario: optical spectrum, three data rows. -/
def fileOpt : SpectralFile :=
  { name := "SN1999aa_ref_opt_tel1_inst1.dat"
    comments := ["SN 1999aa", "Redshift: 0.01", "JDate_of_max: 2451200.0",
                 "JDate_of_observation: 2451210.5", "Epoch: 10.5"]
    rows := [(4000, 1), (4500, 2), (5000, 3)] }

/-- Spectral file `SN1999aa_ref_ir_tel2_inst2.dat` of the spec's concrete
scenario: infrared spectrum, three data rows. -/
def fileIr : SpectralFile :=
  { name := "SN1999aa_ref_ir_tel2_inst2.dat"
    comments := ["SN 1999aa", "Redshift: 0.01", "JDate_of_max: 2451200.0",
                 "JDate_of_observation: 2451210.5", "Epoch: 10.5"]
    rows := [(9000, 4), (9500, 5), (10000, 6)] }

/-- Store holding the two spectral files of the concrete scenario. -/
def storeTwoFiles : Store :=
  { fetched := true, spectraFiles := [fileOpt, fileIr], tableFiles := [] }

/-- Store holding only the optical file. -/
def storeOneFile : Store :=
  { fetched := true, spectraFiles := [fileOpt], tableFiles := [] }

/-- Fetched store with no spectral files at all. -/
def storeEmpty : Store :=
  { fetched := true, spectraFiles := [], tableFiles := [] }

/-- Fetched store whose table directory holds only `table1.dat`. -/
def storeTables : Store :=
  { fetched := true, spectraFiles := [], tableFiles := ["table1.dat"] }

/-- An unfetched store whose table directory nevertheless holds
`table11.dat`. -/
def storeUnfetched : Store :=
  { fetched := false, spectraFiles := [], tableFiles := ["table11.dat"] }

/-- A tagged row of the optical file: observation date 2451210.5 and epoch
10.5 broadcast, wavelength-range `opt`, telescope `tel1`, instrument
`inst1`. -/
def optRow (w fl : Rat) : SpecRow :=
  ⟨mkRat 4902421 2, w, fl, mkRat 21 2, "opt", "tel1", "inst1"⟩

/-- A tagged row of the infrared file. -/
def irRow (w fl : Rat) : SpecRow :=
  ⟨mkRat 4902421 2, w, fl, mkRat 21 2, "ir", "tel2", "inst2"⟩

/-- The tagged rows of the optical file. -/
def rowsOpt : List SpecRow :=
  [optRow 4000 1, optRow 4500 2, optRow 5000 3]

/-- The tagged rows of the infrared file. -/
def rowsIr : List SpecRow :=
  [irRow 9000 4, irRow 9500 5, irRow 10000 6]

/-- Expected aggregated table for `storeTwoFiles` and object id
`201999aa`. -/
def tableTwoFiles : ObjTable :=
  ⟨rowsOpt ++ rowsIr, mkRat 1 100, 2451200, "201999aa"⟩

/-- Expected aggregated table for `storeOneFile` and object id
`201999aa`. -/
def tableOneFile : ObjTable :=
  ⟨rowsOpt, mkRat 1 100, 2451200, "201999aa"⟩

/-- The everywhere-false table predicate: under a correct filtering driver,
iterating with this filter would yield nothing. -/
def pNone : ObjTable → Bool :=
  fun _ => false

/-! ### General lemmas about the aggregation pipeline -/

/-- A successful per-file parse produces exactly one tagged output row per
data row of the file. -/
theorem parseSpectralFile_length {f : SpectralFile} {pr : List SpecRow} {z m : Rat}
    (h : parseSpectralFile f = .ok (pr, z, m)) : pr.length = f.rows.length := by
  unfold parseSpectralFile at h
  cases h1 : parseHeader f.comments with
  | error e => rw [h1] at h; simp at h
  | ok q =>
    obtain ⟨z', m', d, ep⟩ := q
    rw [h1] at h
    cases h2 : parseParts f.name with
    | error e => rw [h2] at h; simp at h
    | ok triple =>
      obtain ⟨wr, te, ins⟩ := triple
      rw [h2] at h
      simp only [Except.ok.injEq, Prod.mk.injEq] at h
      obtain ⟨h3, -, -⟩ := h
      rw [← h3, List.length_map]

/-- A successful parse decomposes into its header and filename parts, with
the observation date, epoch and the three filename codes shared by every
output row and the wavelength and flux taken row-wise from the data. -/
theorem parseSpectralFile_shape {f : SpectralFile} {pr : List SpecRow} {z m : Rat}
    (h : parseSpectralFile f = .ok (pr, z, m)) :
    ∃ d ep wr te ins,
      parseHeader f.comments = .ok (z, m, d, ep) ∧
      parseParts f.name = .ok (wr, te, ins) ∧
      pr = f.rows.map (fun p => ⟨d, p.1, p.2, ep, wr, te, ins⟩) := by
  unfold parseSpectralFile at h
  cases h1 : parseHeader f.comments with
  | error e => rw [h1] at h; simp at h
  | ok q =>
    obtain ⟨z', m', d, ep⟩ := q
    rw [h1] at h
    cases h2 : parseParts f.name with
    | error e => rw [h2] at h; simp at h
    | ok triple =>
      obtain ⟨wr, te, ins⟩ := triple
      rw [h2] at h
      simp only [Except.ok.injEq, Prod.mk.injEq] at h
      obtain ⟨h3, h4, h5⟩ := h
      subst h4
      subst h5
      exact ⟨d, ep, wr, te, ins, rfl, rfl, h3.symm⟩

/-- The aggregation loop stamps the requested object id on the result. -/
theorem aggregate_obj_id (oid : String) (fs : List SpectralFile) :
    ∀ acc last t, aggregate oid fs acc last = .ok t → t.obj_id = oid := by
  induction fs with
  | nil =>
    intro acc last t h
    cases last with
    | none => simp [aggregate] at h
    | some p =>
      obtain ⟨z, m⟩ := p
      simp only [aggregate, Except.ok.injEq] at h
      rw [← h]
  | cons f fs ih =>
    intro acc last t h
    simp only [aggregate] at h
    cases hp : parseSpectralFile f with
    | error e => rw [hp] at h; simp at h
    | ok v =>
      obtain ⟨pr, z, m⟩ := v
      rw [hp] at h
      exact ih _ _ _ h

/-- The aggregation loop adds, for each processed file, exactly that
file's number of data rows. -/
theorem aggregate_length (oid : String) (fs : List SpectralFile) :
    ∀ acc last t, aggregate oid fs acc last = .ok t →
      t.rows.length = acc.length + (fs.map (fun f => f.rows.length)).sum := by
  induction fs with
  | nil =>
    intro acc last t h
    cases last with
    | none => simp [aggregate] at h
    | some p =>
      obtain ⟨z, m⟩ := p
      simp only [aggregate, Except.ok.injEq] at h
      rw [← h]
      simp
  | cons f fs ih =>
    intro acc last t h
    simp only [aggregate] at h
    cases hp : parseSpectralFile f with
    | error e => rw [hp] at h; simp at h
    | ok v =>
      obtain ⟨pr, z, m⟩ := v
      rw [hp] at h
      have := ih _ _ _ h
      have hlen := parseSpectralFile_length hp
      simp only [List.length_append, hlen] at this
      simp only [List.map_cons, List.sum_cons]
      omega

/-- Rows accumulated before the aggregation loop runs survive into the
final table. -/
theorem aggregate_acc_sublist (oid : String) (fs : List SpectralFile) :
    ∀ acc last t, aggregate oid fs acc last = .ok t →
      List.Sublist acc t.rows := by
  induction fs with
  | nil =>
    intro acc last t h
    cases last with
    | none => simp [aggregate] at h
    | some p =>
      obtain ⟨z, m⟩ := p
      simp only [aggregate, Except.ok.injEq] at h
      rw [← h]
  | cons f fs ih =>
    intro acc last t h
    simp only [aggregate] at h
    cases hp : parseSpectralFile f with
    | error e => rw [hp] at h; simp at h
    | ok v =>
      obtain ⟨pr, z, m⟩ := v
      rw [hp] at h
      exact (List.sublist_append_left acc pr).trans (ih _ _ _ h)

/-- When aggregation succeeds, every processed file parsed successfully and
its tagged rows appear, in order, inside the final table. -/
theorem aggregate_mem (oid : String) (fs : List SpectralFile) :
    ∀ acc last t f, f ∈ fs → aggregate oid fs acc last = .ok t →
      ∃ pr z m, parseSpectralFile f = .ok (pr, z, m) ∧ List.Sublist pr t.rows := by
  induction fs with
  | nil => intro acc last t f hmem; exact absurd hmem (List.not_mem_nil f)
  | cons f0 fs ih =>
    intro acc last t f hmem h
    simp only [aggregate] at h
    cases hp : parseSpectralFile f0 with
    | error e => rw [hp] at h; simp at h
    | ok v =>
      obtain ⟨pr, z, m⟩ := v
      rw [hp] at h
      rcases List.mem_cons.mp hmem with rfl | hmem'
      · exact ⟨pr, z, m, hp,
          (List.sublist_append_right acc pr).trans (aggregate_acc_sublist oid fs _ _ _ h)⟩
      · exact ih _ _ _ _ hmem' h

/-- When aggregation succeeds on a non-empty file list, the metadata in the
result is the redshift and date of maximum parsed from the last file. -/
theorem aggregate_last_meta (oid : String) (fs : List SpectralFile) :
    ∀ acc last t, aggregate oid fs acc last = .ok t → fs ≠ [] →
      ∃ fs0 f, fs = fs0 ++ [f] ∧
        ∃ pr, parseSpectralFile f = .ok (pr, t.redshift, t.jdate_of_max) := by
  induction fs with
  | nil => intro acc last t _ hne; exact absurd rfl hne
  | cons f0 fs ih =>
    intro acc last t h _
    simp only [aggregate] at h
    cases hp : parseSpectralFile f0 with
    | error e => rw [hp] at h; simp at h
    | ok v =>
      obtain ⟨pr, z, m⟩ := v
      rw [hp] at h
      cases fs with
      | nil =>
        simp only [aggregate, Except.ok.injEq] at h
        refine ⟨[], f0, rfl, pr, ?_⟩
        rw [← h]
        exact hp
      | cons f1 fs1 =>
        obtain ⟨fs0, f, hsplit, hlast⟩ := ih _ _ _ h (by simp)
        exact ⟨f0 :: fs0, f, by rw [hsplit]; rfl, hlast⟩

/-- Every table the yield loop emits has at least one row. -/
theorem iterYield_mem_ne_zero (st : Store) (ids : List String) :
    ∀ t, t ∈ (iterYield st ids).1 → t.rows.length ≠ 0 := by
  induction ids with
  | nil => intro t ht; simp [iterYield] at ht
  | cons i rest ih =>
    intro t ht
    simp only [iterYield] at ht
    split at ht
    · simp at ht
    · split at ht
      · exact ih t ht
      · rename_i hz
        rcases List.mem_cons.mp ht with rfl | ht'
        · exact hz
        · exact ih t ht'

/-- The table-number scan can only fail as an `int` parse error. -/
theorem tableNums_error (ns : List String) :
    ∀ e, tableNums ns = .error e → e = .intParse := by
  induction ns with
  | nil => intro e h; simp [tableNums] at h
  | cons n ns ih =>
    intro e h
    simp only [tableNums] at h
    split at h
    · cases hp : pyInt (pyLstrip "table" (pyStem n)) with
      | none =>
        rw [hp] at h
        simp only [Except.error.injEq] at h
        exact h.symm
      | some v =>
        rw [hp] at h
        cases hr : tableNums ns with
        | error e2 =>
          rw [hr] at h
          simp only [Except.error.injEq] at h
          rw [← h]
          exact ih e2 hr
        | ok vs => rw [hr] at h; simp at h
    · exact ih e h

/-! ### Claim theorems -/

/-- C1 (code bug evaluation): with a fetched store holding no file matching
`SN50zz_*.dat`, `get_data_for_id "2050zz"` does not raise the intended
object-not-found `ValueError`: the guard `if not files:` tests a generator
object and never fires, so line 105 instead raises `UnboundLocalError` on
the unassigned local `redshift`. -/
theorem c1_zero_match_unbound_local :
    matchingFiles storeEmpty "2050zz" = [] ∧
    get_data_for_id storeEmpty "2050zz" = .error .unboundLocal ∧
    get_data_for_id storeEmpty "2050zz" ≠ .error .objectNotFound := by
  decide

/-- C2 (code bug evaluation): `iter_data` accepts no filter predicate, so
no predicate-based skipping happens: on a store with one non-empty object,
the everywhere-false predicate `pNone` rejects the aggregated table, yet
`iter_data` yields it anyway. -/
theorem c2_no_filter_applied :
    iter_data storeTwoFiles = ([tableTwoFiles], none) ∧
    pNone tableTwoFiles = false := by
  decide

/-- C3 (code bug evaluation): with `table999.dat` absent, `load_table 999`
does not raise the intended table-not-available `ValueError`: the guard
`if not table_path.exists:` tests the bound method object and never fires,
so the reader's file-not-found error surfaces instead. -/
theorem c3_missing_table_file_not_found :
    load_table storeTables 999 = .error .fileNotFound ∧
    load_table storeTables 999 ≠ .error .tableNotFound := by
  decide

/-- C4 counterexample: on an unfetched store, `get_available_tables` does
not fail with the data-unavailable error (unlike `get_available_ids` on
the very same store): it scans anyway and returns the table numbers it
finds. -/
theorem c4_counterexample :
    storeUnfetched.fetched = false ∧
    get_available_tables storeUnfetched = .ok [11] ∧
    get_available_tables storeUnfetched ≠ .error .dataUnavailable ∧
    get_available_ids storeUnfetched = .error .dataUnavailable := by
  decide

/-- C4 (amended): `get_available_tables` performs no availability check at
all — its result ignores the fetched flag, and it never fails with the
data-unavailable error on any store. -/
theorem c4_no_availability_check (st : Store) (b : Bool) :
    get_available_tables { st with fetched := b } = get_available_tables st ∧
    get_available_tables st ≠ .error PyErr.dataUnavailable := by
  refine ⟨rfl, ?_⟩
  intro h
  unfold get_available_tables at h
  exact PyErr.noConfusion (tableNums_error st.tableFiles _ h)

/-- C5 counterexample: the wavelength-range code is not excluded from the
broadcast — every row of a parsed file's table carries it — and the four
scalar header values are not all broadcast: the output schema has no
redshift or date-of-maximum column to broadcast into. -/
theorem c5_counterexample :
    get_data_for_id storeOneFile "201999aa" = .ok tableOneFile ∧
    tableOneFile.rows.map SpecRow.wavelength_range = ["opt", "opt", "opt"] ∧
    outputColumns.contains "wavelength_range" = true ∧
    outputColumns.contains "redshift" = false ∧
    outputColumns.contains "JDate_of_max" = false := by
  decide

/-- C5 (amended): for every successfully parsed spectral file, two of the
four scalar header values (the observation date, as the `date` column, and
the epoch) and all three filename-derived string codes (wavelength range,
telescope, instrument) are broadcast across every row of that file's
table; the redshift and date of maximum are not broadcast but returned
once, for the table-level metadata. -/
theorem c5_broadcast_columns (f : SpectralFile) (pr : List SpecRow) (z m : Rat)
    (h : parseSpectralFile f = .ok (pr, z, m)) :
    ∃ d ep wr te ins,
      parseHeader f.comments = .ok (z, m, d, ep) ∧
      parseParts f.name = .ok (wr, te, ins) ∧
      pr = f.rows.map (fun p => ⟨d, p.1, p.2, ep, wr, te, ins⟩) := by
  exact parseSpectralFile_shape h

/-- Witness for C5: the amended broadcast theorem applied to the concrete
optical file. -/
theorem c5_broadcast_columns_witness :
    parseSpectralFile fileOpt = .ok (rowsOpt, mkRat 1 100, 2451200) ∧
    ∃ d ep wr te ins,
      parseHeader fileOpt.comments = .ok (mkRat 1 100, 2451200, d, ep) ∧
      parseParts fileOpt.name = .ok (wr, te, ins) ∧
      rowsOpt = fileOpt.rows.map (fun p => ⟨d, p.1, p.2, ep, wr, te, ins⟩) :=
  ⟨by decide, c5_broadcast_columns fileOpt rowsOpt (mkRat 1 100) 2451200 (by decide)⟩

/-- C6 counterexample: with the two scenario files in the store,
`load_object "1999aa"` does not return a 6-row table: the derived pattern
is `SN99aa_*.dat`, which matches neither file, and the call fails (with
the unbound-local error of the dead zero-match guard). -/
theorem c6_counterexample :
    get_data_for_id storeTwoFiles "1999aa" = .error .unboundLocal := by
  decide

/-- C6 (amended): with the two scenario files, the id the module itself
derives is `201999aa`, and `load_object "201999aa"` returns a 6-row table
with object id `201999aa`, redshift 0.01, and both wavelength-range codes
`opt` and `ir` among its rows. -/
theorem c6_amended_scenario :
    get_available_ids storeTwoFiles = .ok ["201999aa"] ∧
    get_data_for_id storeTwoFiles "201999aa" = .ok tableTwoFiles ∧
    tableTwoFiles.rows.length = 6 ∧
    tableTwoFiles.obj_id = "201999aa" ∧
    tableTwoFiles.redshift = mkRat 1 100 ∧
    "opt" ∈ tableTwoFiles.rows.map SpecRow.wavelength_range ∧
    "ir" ∈ tableTwoFiles.rows.map SpecRow.wavelength_range := by
  decide

/-- C7: whenever `get_data_for_id` succeeds, the returned table's metadata
carries the requested object id, and its redshift and date of maximum are
the values parsed from the last-processed matching file. -/
theorem c7_last_file_wins_metadata (st : Store) (oid : String) (t : ObjTable)
    (h : get_data_for_id st oid = .ok t) :
    t.obj_id = oid ∧
    ∃ fs0 f, matchingFiles st oid = fs0 ++ [f] ∧
      ∃ pr, parseSpectralFile f = .ok (pr, t.redshift, t.jdate_of_max) := by
  unfold get_data_for_id at h
  split at h
  · simp at h
  · refine ⟨aggregate_obj_id oid _ _ _ _ h, ?_⟩
    have hne : matchingFiles st oid ≠ [] := by
      intro hnil
      rw [hnil] at h
      simp [aggregate] at h
    exact aggregate_last_meta oid _ _ _ _ h hne

/-- Witness for C7: the metadata theorem applied to the concrete two-file
store, where the infrared file is processed last. -/
theorem c7_last_file_wins_metadata_witness :
    get_data_for_id storeTwoFiles "201999aa" = .ok tableTwoFiles ∧
    (tableTwoFiles.obj_id = "201999aa" ∧
      ∃ fs0 f, matchingFiles storeTwoFiles "201999aa" = fs0 ++ [f] ∧
        ∃ pr, parseSpectralFile f =
          .ok (pr, tableTwoFiles.redshift, tableTwoFiles.jdate_of_max)) :=
  ⟨by decide,
    c7_last_file_wins_metadata storeTwoFiles "201999aa" tableTwoFiles (by decide)⟩

/-- C8: whenever `get_data_for_id` succeeds, the returned table has exactly
as many rows as all matching spectral files have data rows in total. -/
theorem c8_row_count_complete (st : Store) (oid : String) (t : ObjTable)
    (h : get_data_for_id st oid = .ok t) :
    t.rows.length = ((matchingFiles st oid).map (fun f => f.rows.length)).sum := by
  unfold get_data_for_id at h
  split at h
  · simp at h
  · have := aggregate_length oid _ _ _ _ h
    simpa using this

/-- Witness for C8: the row-count theorem applied to the concrete two-file
store (3 + 3 = 6 rows). -/
theorem c8_row_count_complete_witness :
    get_data_for_id storeTwoFiles "201999aa" = .ok tableTwoFiles ∧
    tableTwoFiles.rows.length =
      ((matchingFiles storeTwoFiles "201999aa").map (fun f => f.rows.length)).sum :=
  ⟨by decide,
    c8_row_count_complete storeTwoFiles "201999aa" tableTwoFiles (by decide)⟩

/-- C9: for every store, `iter_data` never yields a table with zero rows:
an object whose aggregated table is empty is skipped. -/
theorem c9_no_empty_table_yielded (st : Store) (t : ObjTable)
    (h : t ∈ (iter_data st).1) : t.rows.length ≠ 0 := by
  unfold iter_data at h
  cases hg : get_available_ids st with
  | error e => rw [hg] at h; simp at h
  | ok ids =>
    rw [hg] at h
    exact iterYield_mem_ne_zero st ids t h

/-- Witness for C9: the zero-row-suppression theorem applied to the table
the concrete two-file store yields. -/
theorem c9_no_empty_table_yielded_witness :
    tableTwoFiles ∈ (iter_data storeTwoFiles).1 ∧ tableTwoFiles.rows.length ≠ 0 :=
  ⟨by decide, c9_no_empty_table_yielded storeTwoFiles tableTwoFiles (by decide)⟩

/-! ### String lemmas for the id round trip -/

/-- A list is an initial segment of itself followed by anything. -/
theorem listStarts_append : ∀ (p r : List Char), listStarts p (p ++ r) = true := by
  intro p r
  induction p with
  | nil => rfl
  | cons a as ih => simp [listStarts, ih]

/-- A name of the literal shape `pre ++ mid ++ suf` matches the glob
pattern `pre*suf`. -/
theorem globMatch1_of_data {pre suf name : String} (mid : List Char)
    (h : name.data = pre.data ++ mid ++ suf.data) :
    globMatch1 pre suf name = true := by
  unfold globMatch1
  rw [h]
  simp only [Bool.and_eq_true, decide_eq_true_eq]
  refine ⟨⟨?_, ?_⟩, ?_⟩
  · rw [List.append_assoc]
    exact listStarts_append _ _
  · rw [List.reverse_append]
    exact listStarts_append _ _
  · simp [List.length_append]

/-- Splitting never produces the empty list of pieces. -/
theorem pySplitChars_ne_nil (sep : Char) : ∀ l, pySplitChars sep l ≠ [] := by
  intro l
  induction l with
  | nil => simp [pySplitChars]
  | cons c cs ih =>
    simp only [pySplitChars]
    cases hr : pySplitChars sep cs with
    | nil => by_cases hc : c = sep <;> simp [hc]
    | cons p ps => by_cases hc : c = sep <;> simp [hc]

/-- Splitting at the first separator occurrence peels off the prefix before
it as the first piece. -/
theorem pySplitChars_sep_append (sep : Char) :
    ∀ pre post, sep ∉ pre →
      pySplitChars sep (pre ++ sep :: post) = pre :: pySplitChars sep post := by
  intro pre
  induction pre with
  | nil =>
    intro post _
    simp only [List.nil_append, pySplitChars]
    cases hr : pySplitChars sep post with
    | nil => exact absurd hr (pySplitChars_ne_nil sep post)
    | cons p ps => simp
  | cons a pre ih =>
    intro post hnotin
    have ha : a ≠ sep := fun hq => hnotin (hq ▸ List.mem_cons_self a pre)
    simp only [List.cons_append, pySplitChars, List.append_eq]
    rw [ih post (fun hm => hnotin (List.mem_cons_of_mem a hm))]
    simp [ha]

/-- Stripping the character set of `"SN"` from `SN<suffix>` recovers the
suffix whenever the suffix does not itself begin with `S` or `N`. -/
theorem pyLstrip_SN (suffix : String)
    (hS : suffix.data.head? ≠ some 'S') (hN : suffix.data.head? ≠ some 'N') :
    pyLstrip "SN" ⟨'S' :: 'N' :: suffix.data⟩ = suffix := by
  apply String.ext
  show ('S' :: 'N' :: suffix.data).dropWhile (fun c => decide (c ∈ "SN".data)) = suffix.data
  cases hsd : suffix.data with
  | nil => decide
  | cons c cs =>
    have hc1 : c ≠ 'S' := fun q => hS (by rw [hsd, q]; rfl)
    have hc2 : c ≠ 'N' := fun q => hN (by rw [hsd, q]; rfl)
    rw [List.dropWhile_cons, if_pos (by decide), List.dropWhile_cons,
      if_pos (by decide), List.dropWhile_cons, if_neg (by simp [hc1, hc2])]

/-- Dropping the first two characters of `20<suffix>` recovers the
suffix. -/
theorem pySlice2_20 (suffix : String) : pySlice2 ("20" ++ suffix) = suffix := by
  apply String.ext
  show ("20" ++ suffix).data.drop 2 = suffix.data
  rw [String.data_append]
  rfl

/-- The id `get_available_ids` derives from a well-formed spectral file
name `SN<suffix>_<rest>.dat` is `20<suffix>`, provided the suffix starts
with neither `S` nor `N` (otherwise `lstrip` eats into it) and contains no
underscore. -/
theorem derivedId_eq (f : SpectralFile) (suffix rest : String)
    (hname : f.name = "SN" ++ suffix ++ "_" ++ rest ++ ".dat")
    (hS : suffix.data.head? ≠ some 'S') (hN : suffix.data.head? ≠ some 'N')
    (hU : '_' ∉ suffix.data) :
    derivedId f = "20" ++ suffix := by
  have hdata : f.name.data =
      ('S' :: 'N' :: suffix.data) ++ '_' :: (rest.data ++ ['.', 'd', 'a', 't']) := by
    rw [hname]
    have hSN : "SN".data = ['S', 'N'] := rfl
    have hUnd : "_".data = ['_'] := rfl
    have hDat : ".dat".data = ['.', 'd', 'a', 't'] := rfl
    simp [String.data_append, hSN, hUnd, hDat]
  have hnot : '_' ∉ ('S' :: 'N' :: suffix.data) := by
    intro hm
    rcases List.mem_cons.mp hm with h1 | hm
    · exact absurd h1.symm (by decide)
    rcases List.mem_cons.mp hm with h2 | hm
    · exact absurd h2.symm (by decide)
    · exact hU hm
  have hsplit : pySplitChars '_' f.name.data =
      ('S' :: 'N' :: suffix.data) :: pySplitChars '_' (rest.data ++ ['.', 'd', 'a', 't']) := by
    rw [hdata]
    exact pySplitChars_sep_append '_' _ _ hnot
  unfold derivedId
  rw [show (pySplit '_' f.name).getD 0 "" = ⟨'S' :: 'N' :: suffix.data⟩ by
    unfold pySplit
    rw [hsplit]
    rfl]
  rw [pyLstrip_SN suffix hS hN]

/-- Character-level decomposition of a well-formed spectral file name. -/
theorem name_data_decomp (f : SpectralFile) (suffix rest : String)
    (hname : f.name = "SN" ++ suffix ++ "_" ++ rest ++ ".dat") :
    f.name.data =
      ('S' :: 'N' :: suffix.data) ++ '_' :: (rest.data ++ ['.', 'd', 'a', 't']) := by
  rw [hname]
  have hSN : "SN".data = ['S', 'N'] := rfl
  have hUnd : "_".data = ['_'] := rfl
  have hDat : ".dat".data = ['.', 'd', 'a', 't'] := rfl
  simp [String.data_append, hSN, hUnd, hDat]

/-- C10: for every fetched store and every spectral file named
`SN<suffix>_<rest>.dat` whose suffix neither begins with `S` or `N` nor
contains an underscore, the id `get_available_ids` derives from the file
is `20<suffix>`; that id is among the enumerated ids, its match pattern
`SN<suffix>_*.dat` matches the originating file, and whenever
`get_data_for_id` succeeds on it, the file's tagged rows are contained, in
order, in the returned table. -/
theorem c10_id_roundtrip (st : Store) (f : SpectralFile) (suffix rest : String)
    (hf : st.fetched = true)
    (hmem : f ∈ st.spectraFiles)
    (hname : f.name = "SN" ++ suffix ++ "_" ++ rest ++ ".dat")
    (hS : suffix.data.head? ≠ some 'S') (hN : suffix.data.head? ≠ some 'N')
    (hU : '_' ∉ suffix.data) :
    derivedId f = "20" ++ suffix ∧
    (∀ ids, get_available_ids st = .ok ids → derivedId f ∈ ids) ∧
    f ∈ matchingFiles st (derivedId f) ∧
    (∀ t, get_data_for_id st (derivedId f) = .ok t →
      ∃ pr z m, parseSpectralFile f = .ok (pr, z, m) ∧ List.Sublist pr t.rows) := by
  have hid := derivedId_eq f suffix rest hname hS hN hU
  have hdata := name_data_decomp f suffix rest hname
  have hSN : "SN".data = ['S', 'N'] := rfl
  have hUnd : "_".data = ['_'] := rfl
  have hDat : ".dat".data = ['.', 'd', 'a', 't'] := rfl
  have hglobSN : globMatch1 "SN" ".dat" f.name = true := by
    apply globMatch1_of_data (suffix.data ++ '_' :: rest.data)
    rw [hdata, hSN, hDat]
    simp
  have hglobPat : globMatch1 (objPattern (derivedId f)) ".dat" f.name = true := by
    rw [hid]
    unfold objPattern
    rw [pySlice2_20]
    apply globMatch1_of_data rest.data
    rw [hdata, hDat, String.data_append, String.data_append, hSN, hUnd]
    simp
  have hmemFilter : f ∈ matchingFiles st (derivedId f) :=
    List.mem_filter.mpr ⟨hmem, hglobPat⟩
  refine ⟨hid, ?_, hmemFilter, ?_⟩
  · intro ids h
    unfold get_available_ids at h
    rw [if_neg (by simp [hf])] at h
    simp only [Except.ok.injEq] at h
    subst h
    exact List.mem_dedup.mpr
      (List.mem_map_of_mem derivedId (List.mem_filter.mpr ⟨hmem, hglobSN⟩))
  · intro t ht
    unfold get_data_for_id at ht
    rw [if_neg (by simp [hf])] at ht
    exact aggregate_mem (derivedId f) _ _ _ _ f hmemFilter ht

/-- Witness for C10: the round trip applied to the concrete optical file,
whose suffix is `1999aa`; the derived id is `201999aa` and the file's three
tagged rows sit inside the six-row aggregated table. -/
theorem c10_id_roundtrip_witness :
    derivedId fileOpt = "20" ++ "1999aa" ∧
    derivedId fileOpt ∈ ["201999aa"] ∧
    fileOpt ∈ matchingFiles storeTwoFiles (derivedId fileOpt) ∧
    ∃ pr z m, parseSpectralFile fileOpt = .ok (pr, z, m) ∧
      List.Sublist pr tableTwoFiles.rows := by
  have h := c10_id_roundtrip storeTwoFiles fileOpt "1999aa" "ref_opt_tel1_inst1"
    rfl (by decide) (by decide) (by decide) (by decide) (by decide)
  exact ⟨h.1, h.2.1 ["201999aa"] (by decide), h.2.2.1, h.2.2.2 tableTwoFiles (by decide)⟩
